import Mathlib

/-!
Verification development for the sto-sol deposit-signing client.

The embedding models the two `handleDeposit` pipelines of the repository
(`src/unnamed/part_001` and `src/src/app/page.tsx`) as pure interpreters over
a stubbed environment.  Each interpreter records the observable behaviour of
one invocation: the ordered trace of status updates, loading-flag writes and
external calls (fetch, blockhash, instruction decoding, wallet signing,
broadcast, confirmation), the final status string, the final loading flag,
the list of decoded instructions, the built transaction, and a terminal
outcome tag naming the source code path that produced it.

Library behaviour that the source relies on is embedded with the semantics
of the actual dependencies: `new PublicKey(string)` performs a bs58 decode
(throwing the generic message Non-base58 character on a bad digit, or
Invalid public key input when the decoded byte length is not 32), and
The Node call `Buffer.from(s, "base64")` is forgiving: it silently drops
characters outside the base64 alphabet and never throws.
-/

deriving instance DecidableEq for Except

namespace StoSol

/-! ## Character-list helpers -/

/-- Test `leadsWith hay pat`: true when `pat` is an initial segment of `hay`. -/
def leadsWith : List Char → List Char → Bool
  | _, [] => true
  | [], _ :: _ => false
  | c :: cs, p :: ps => c == p && leadsWith cs ps

/-- Test `hasSub pat hay`: true when `pat` occurs contiguously inside `hay`. -/
def hasSub (pat : List Char) : List Char → Bool
  | [] => pat.isEmpty
  | c :: t => leadsWith (c :: t) pat || hasSub pat t

/-- JavaScript substring test `m.includes(pat)` on strings. -/
def containsJS (m pat : String) : Bool := hasSub pat.data m.data

/-- First index of `c` in a character list, if present. -/
def charIdx (c : Char) : List Char → Option Nat
  | [] => none
  | h :: t => if h == c then some 0 else (charIdx c t).map (· + 1)

/-! ## bs58 decoding, as performed by `new PublicKey(string)` -/

def base58Alphabet : List Char :=
  ("123456789ABCDEFGHJKLMNPQRSTUVWXYZabcdefghijkmnopqrstuvwxyz").data

/-- Value of one base58 digit, `none` for a character outside the alphabet. -/
def base58Digit (c : Char) : Option Nat := charIdx c base58Alphabet

/-- Base-58 value of a digit string, `none` on any invalid character. -/
def base58Nat : List Char → Option Nat
  | [] => some 0
  | c :: t =>
    match base58Digit c, base58Nat t with
    | some d, some n => some (n * 58 + d * 58 ^ t.length)
    | _, _ => none

/-- Big-endian byte expansion of a natural number (empty for zero);
fuel-indexed so that it is structurally recursive. -/
def natToBytesAux (fuel n : Nat) : List Nat :=
  match fuel with
  | 0 => []
  | f + 1 => if n = 0 then [] else natToBytesAux f (n / 256) ++ [n % 256]

def natToBytes (n : Nat) : List Nat := natToBytesAux n n

/-- bs58 decode: each leading 1 digit contributes a zero byte, the whole
digit string contributes its base-58 value in big-endian bytes.  `none` on
a character outside the base58 alphabet (bs58 throws Non-base58 character). -/
def base58Decode (s : String) : Option (List Nat) :=
  match base58Nat s.data with
  | none => none
  | some n => some (List.replicate (s.data.takeWhile (· == '1')).length 0 ++ natToBytes n)

/-- Constructor call `new PublicKey(s)` for a string argument: bs58-decode and require 32
bytes; the two failure messages are the ones the libraries throw. -/
def publicKeyNew (s : String) : Except String (List Nat) :=
  match base58Decode s with
  | none => .error "Non-base58 character"
  | some bs => if bs.length = 32 then .ok bs else .error "Invalid public key input"

/-! ## Node `Buffer.from(s, "base64")`: forgiving, total -/

def base64Alphabet : List Char :=
  ("ABCDEFGHIJKLMNOPQRSTUVWXYZabcdefghijklmnopqrstuvwxyz0123456789+/").data

def base64Digit (c : Char) : Option Nat := charIdx c base64Alphabet

/-- Reassemble 6-bit group values into bytes, dropping a trailing
incomplete byte, exactly as Node does for unpadded input. -/
def base64Bytes : List Nat → List Nat
  | a :: b :: c :: d :: rest =>
    (a * 4 + b / 16) :: ((b % 16) * 16 + c / 4) :: ((c % 4) * 64 + d) :: base64Bytes rest
  | [a, b] => [a * 4 + b / 16]
  | [a, b, c] => [a * 4 + b / 16, (b % 16) * 16 + c / 4]
  | _ => []

/-- Node `Buffer.from(s, "base64")`: characters outside the alphabet
(including padding and whitespace) are silently ignored; never fails. -/
def bufferFromBase64 (s : String) : List Nat :=
  base64Bytes (s.data.filterMap base64Digit)

/-- Modelled from the spec: the strict notion of a syntactically valid
base64 payload used by the Decoder contract of the spec (4-aligned length, body
in the base64 alphabet, at most two trailing padding characters).  The
repository has no such validator; this definition only serves to state
which payloads the spec calls invalid. -/
def isStrictBase64 (s : String) : Bool :=
  let cs := s.data
  let pad := (cs.reverse.takeWhile (· == '=')).length
  (cs.length % 4 == 0) && (pad ≤ 2) &&
    ((cs.take (cs.length - pad)).all (fun c => (base64Digit c).isSome))

/-! ## JavaScript `parseInt` (radix 10), as used by handleDurationChange -/

def isJsSpace (c : Char) : Bool :=
  c == ' ' || c == '\t' || c == '\n' || c == '\r'

/-- Value of a maximal leading decimal-digit run; `none` when there is no
leading digit (JavaScript NaN). -/
def leadingDigits (cs : List Char) : Option Nat :=
  let ds := cs.takeWhile Char.isDigit
  if ds.isEmpty then none
  else some (ds.foldl (fun acc c => acc * 10 + (c.toNat - 48)) 0)

/-- JavaScript function `parseInt(s)` (default radix): skip leading whitespace, an
optional sign, then the maximal digit run; `none` models NaN. -/
def parseIntJS (s : String) : Option Int :=
  match s.data.dropWhile isJsSpace with
  | '-' :: rest => (leadingDigits rest).map (fun n => -(n : Int))
  | '+' :: rest => (leadingDigits rest).map (fun n => (n : Int))
  | rest => (leadingDigits rest).map (fun n => (n : Int))

/-! ## Data model (src/unnamed/part_001 and src/src/app/page.tsx) -/

/-- One entry of the `keys` array of a descriptor as sent by the backend. -/
structure AccountMeta where
  pubkey : String
  isSigner : Bool
  isWritable : Bool
deriving DecidableEq, Repr

/-- The untyped instruction descriptor of the backend: `programId`, `keys`,
base64 `data`. -/
structure InstructionDescriptor where
  programId : String
  keys : List AccountMeta
  data : String
deriving DecidableEq, Repr

/-- A decoded account entry (pubkey as 32 raw bytes). -/
structure DecodedAccount where
  pubkey : List Nat
  isSigner : Bool
  isWritable : Bool
deriving DecidableEq, Repr

/-- The web3.js `TransactionInstruction` built from a descriptor. -/
structure TransactionInstruction where
  programId : List Nat
  keys : List DecodedAccount
  data : List Nat
deriving DecidableEq, Repr

/-- The web3.js `Transaction` as the source uses it: instruction list,
`recentBlockhash`, `feePayer` (kept in base58 form). -/
structure Transaction where
  instructions : List TransactionInstruction
  recentBlockhash : String
  feePayer : String
deriving DecidableEq, Repr

/-- Method `tx.add(ix)`: appends the instruction to the transaction. -/
def Transaction.add (tx : Transaction) (ix : TransactionInstruction) : Transaction :=
  { tx with instructions := tx.instructions ++ [ix] }

/-! ## The decoder: `new TransactionInstruction({programId, keys, data})`
(src/unnamed/part_001 lines 99-108, src/src/app/page.tsx lines 67-75) -/

/-- Decode the `keys` array in order; the first invalid pubkey throws. -/
def decodeKeys : List AccountMeta → Except String (List DecodedAccount)
  | [] => .ok []
  | k :: rest => do
    let pk ← publicKeyNew k.pubkey
    let tail ← decodeKeys rest
    .ok ({ pubkey := pk, isSigner := k.isSigner, isWritable := k.isWritable } :: tail)

/-- Build the native instruction from a descriptor: decode `programId`, the
`keys` in order, then the payload via the forgiving base64 decode. -/
def decodeInstruction (d : InstructionDescriptor) : Except String TransactionInstruction := do
  let pid ← publicKeyNew d.programId
  let ks ← decodeKeys d.keys
  .ok { programId := pid, keys := ks, data := bufferFromBase64 d.data }

/-! ## Observable events of one handleDeposit invocation -/

/-- One observable step of a pipeline run, in program order. -/
inductive Event where
  /-- POST to the uploadFile endpoint (src/unnamed/part_001 lines 68-77):
  the duration in seconds, the size of the attached file, and the wallet key. -/
  | fetchCall (durationSeconds : Int) (sizeBytes : Nat) (publicKey : String)
  /-- POST to the deposit endpoint of src/src/app/page.tsx lines 32-42. -/
  | pageFetchCall (publicKey : String)
  /-- Call `connection.getLatestBlockhash("confirmed")`. -/
  | getLatestBlockhash
  /-- Call `new TransactionInstruction(...)` on the first descriptor. -/
  | decodeCall
  /-- Call `wallet.signTransaction(tx)`. -/
  | signCall
  /-- Call `connection.sendRawTransaction(...)` with its literal options. -/
  | sendCall (skipPreflight : Bool) (preflightCommitment : String)
  /-- Call `connection.confirmTransaction(...)`. -/
  | confirmCall
  /-- Call `setStatus(s)`. -/
  | statusUpdate (s : String)
  /-- Call `setIsLoading(b)`. -/
  | loadingSet (b : Bool)
deriving DecidableEq, Repr

/-- True for the events that perform external input/output (network or
wallet interaction). -/
def Event.isExternalCall : Event → Bool
  | .fetchCall _ _ _ => true
  | .pageFetchCall _ => true
  | .getLatestBlockhash => true
  | .signCall => true
  | .sendCall _ _ => true
  | .confirmCall => true
  | _ => false

def Event.isFetchCall : Event → Bool
  | .fetchCall _ _ _ => true
  | _ => false

def Event.isGetBlockhash : Event → Bool
  | .getLatestBlockhash => true
  | _ => false

def Event.isDecodeCall : Event → Bool
  | .decodeCall => true
  | _ => false

def Event.isSignCall : Event → Bool
  | .signCall => true
  | _ => false

def Event.isSendCall : Event → Bool
  | .sendCall _ _ => true
  | _ => false

def Event.isLoadingTrue : Event → Bool
  | .loadingSet b => b
  | _ => false

/-- First index in a trace at which `p` holds. -/
def firstIdx (p : Event → Bool) : List Event → Option Nat
  | [] => none
  | e :: t => if p e then some 0 else (firstIdx p t).map (· + 1)

/-! ## Stubbed environment and run result -/

/-- The `File` chosen in the file input. -/
structure FileInfo where
  name : String
  size : Nat
deriving DecidableEq, Repr

/-- The parsed JSON body of a fetch response. -/
structure FetchResponse where
  /-- Field `res.ok`. -/
  ok : Bool
  /-- Field `errorData.error` of a non-ok response (`none` models a missing field). -/
  errorField : Option String
  /-- The `instructions` field (`none` models a missing field). -/
  instructions : Option (List InstructionDescriptor)
deriving DecidableEq, Repr

/-- Everything one part_001 handleDeposit invocation can observe from the
outside world: component state read at entry plus the results of each
suspension point.  An `Except.error m` models the awaited call throwing an
`Error` whose `message` is `m`. -/
structure Env where
  walletPublicKey : Option String
  file : Option FileInfo
  durationDays : Int
  fetchResult : Except String FetchResponse
  blockhash : String
  lastValidBlockHeight : Nat
  signResult : Except String Unit
  sendResult : Except String String
  confirmResult : Except String Unit

/-- Terminal classification of a run, one constructor per source return
path. -/
inductive Outcome where
  /-- A guard rejected the input before `setIsLoading(true)`. -/
  | idleValidation (msg : String)
  /-- The `!res.ok` early return. -/
  | backendRejected (msg : String)
  /-- The empty/missing `instructions` early return. -/
  | emptyResponse
  /-- The catch-all `catch (err)` block, with the message of the error. -/
  | thrown (msg : String)
  /-- The success path, with the broadcast signature. -/
  | confirmed (signature : String)
deriving DecidableEq, Repr

/-- The observable result of one handleDeposit invocation. -/
structure RunResult where
  trace : List Event
  finalStatus : String
  isLoading : Bool
  /-- The decoded instructions produced during the run, in decode order. -/
  decodedInstructions : List TransactionInstruction
  /-- The transaction handed to `wallet.signTransaction`, if one was built. -/
  builtTx : Option Transaction
  outcome : Outcome
deriving DecidableEq, Repr

/-! ## Status strings of src/unnamed/part_001 -/

def connectWalletMsg : String := "Connect your wallet first."
def selectFileMsg : String := "Please select a file first."
def durationMsg : String := "Duration must be at least 1 day."
def uploadingMsg : String := "Uploading file & fetching deposit instruction..."
def buildingMsg : String := "Building transaction..."
def signingMsg : String := "Signing and sending..."
def confirmingMsg : String := "Confirming transaction..."

/-- JavaScript expression `errorData.error || "Unknown backend error"` (note that the
empty string is falsy) prefixed as in the source. -/
def backendErrorStatus (e : Option String) : String :=
  "❌ Backend error: " ++
    (match e with
     | none => "Unknown backend error"
     | some s => if s = "" then "Unknown backend error" else s)

def noInstructionMsg : String := "❌ No instruction data received from backend"

/-- The part_001 catch-all status: the raw error message behind a fixed
failure marker. -/
def depositFailedStatus (m : String) : String := "❌ Failed: " ++ m

def confirmedStatus (sig : String) : String := "✅ Transaction confirmed: " ++ sig

/-! ## The part_001 pipeline interpreter (src/unnamed/part_001 lines 50-146) -/

/-- Result of the `catch`/`finally` exit of part_001: report the raw error
message and release the loading flag. -/
def caughtResult (pre : List Event) (m : String)
    (decoded : List TransactionInstruction) (tx : Option Transaction) : RunResult :=
  { trace := pre ++ [.statusUpdate (depositFailedStatus m), .loadingSet false]
    finalStatus := depositFailedStatus m
    isLoading := false
    decodedInstructions := decoded
    builtTx := tx
    outcome := .thrown m }

/-- Result of the empty/missing-instructions early return. -/
def emptyResult (pre : List Event) : RunResult :=
  { trace := pre ++ [.statusUpdate noInstructionMsg, .loadingSet false]
    finalStatus := noInstructionMsg
    isLoading := false
    decodedInstructions := []
    builtTx := none
    outcome := .emptyResponse }

/-- Result of the `!res.ok` early return. -/
def backendResult (pre : List Event) (e : Option String) : RunResult :=
  { trace := pre ++ [.statusUpdate (backendErrorStatus e), .loadingSet false]
    finalStatus := backendErrorStatus e
    isLoading := false
    decodedInstructions := []
    builtTx := none
    outcome := .backendRejected (backendErrorStatus e) }

/-- Result of a guard early return: one validation status, nothing else. -/
def guardResult (msg : String) : RunResult :=
  { trace := [.statusUpdate msg]
    finalStatus := msg
    isLoading := false
    decodedInstructions := []
    builtTx := none
    outcome := .idleValidation msg }

/-- The body after the guards of part_001 handleDeposit: fetch, validate
the response, get the blockhash, decode the first descriptor, build, sign,
broadcast, confirm — with the `catch`/`finally` exits. -/
def runDepositBody (env : Env) (pk : String) (f : FileInfo) : RunResult :=
  let pre := [Event.loadingSet true, Event.statusUpdate uploadingMsg,
              Event.fetchCall (env.durationDays * 86400) f.size pk]
  match env.fetchResult with
  | .error m => caughtResult pre m [] none
  | .ok res =>
    if res.ok then
      match res.instructions with
      | none => emptyResult pre
      | some [] => emptyResult pre
      | some (d0 :: _) =>
        let pre2 := pre ++ [Event.statusUpdate buildingMsg,
                            Event.getLatestBlockhash, Event.decodeCall]
        match decodeInstruction d0 with
        | .error m => caughtResult pre2 m [] none
        | .ok ix =>
          let tx := Transaction.add
            { instructions := [], recentBlockhash := env.blockhash, feePayer := pk } ix
          let pre3 := pre2 ++ [Event.statusUpdate signingMsg, Event.signCall]
          match env.signResult with
          | .error m => caughtResult pre3 m [ix] (some tx)
          | .ok _ =>
            let pre4 := pre3 ++ [Event.sendCall false "confirmed"]
            match env.sendResult with
            | .error m => caughtResult pre4 m [ix] (some tx)
            | .ok sig =>
              let pre5 := pre4 ++ [Event.statusUpdate confirmingMsg, Event.confirmCall]
              match env.confirmResult with
              | .error m => caughtResult pre5 m [ix] (some tx)
              | .ok _ =>
                { trace := pre5 ++ [.statusUpdate (confirmedStatus sig), .loadingSet false]
                  finalStatus := confirmedStatus sig
                  isLoading := false
                  decodedInstructions := [ix]
                  builtTx := some tx
                  outcome := .confirmed sig }
    else backendResult pre res.errorField

/-- One invocation of part_001 handleDeposit: the three guards, then the
pipeline body. -/
def runDeposit (env : Env) : RunResult :=
  match env.walletPublicKey with
  | none => guardResult connectWalletMsg
  | some pk =>
    match env.file with
    | none => guardResult selectFileMsg
    | some f =>
      if env.durationDays < 1 then guardResult durationMsg
      else runDepositBody env pk f

/-! ## handleDurationChange (src/unnamed/part_001 lines 27-32) -/

/-- Handler `handleDurationChange`: parse the input; only a parsed value that is a
number and strictly positive replaces the current duration. -/
def handleDurationChange (input : String) (current : Int) : Int :=
  match parseIntJS input with
  | none => current
  | some d => if 0 < d then d else current

/-- The `disabled` expression of the submit button
(src/unnamed/part_001 line 227). -/
def submitDisabled (walletConnected isLoading hasFile : Bool) : Bool :=
  !walletConnected || isLoading || !hasFile

/-! ## The page.tsx pipeline interpreter (src/src/app/page.tsx lines 22-130) -/

/-- What one page.tsx handleDeposit invocation can observe. -/
structure PageEnv where
  walletPublicKey : Option String
  fetchResult : Except String FetchResponse
  blockhash : String
  lastValidBlockHeight : Nat
  signResult : Except String Unit
  sendResult : Except String String
  confirmResult : Except String Unit

def pageFetchingMsg : String := "Fetching deposit instruction..."

/-- The message-classification of the page.tsx catch block
(src/src/app/page.tsx lines 112-124): substring tests on the error
message, in source order. -/
def classifyError (m : String) : String :=
  if containsJS m "Transaction simulation failed" then
    "Transaction simulation failed. Check program logs for details."
  else if containsJS m "Blockhash not found" then
    "Transaction expired. Please try again."
  else if containsJS m "Insufficient funds" then
    "Insufficient SOL balance for transaction."
  else m

/-- The page.tsx catch-all status: the classified message behind the same
failure marker. -/
def pageFailedStatus (m : String) : String := "❌ Failed: " ++ classifyError m

/-- The page.tsx catch/finally exit. -/
def pageCaughtResult (pre : List Event) (m : String)
    (decoded : List TransactionInstruction) (tx : Option Transaction) : RunResult :=
  { trace := pre ++ [.statusUpdate (pageFailedStatus m), .loadingSet false]
    finalStatus := pageFailedStatus m
    isLoading := false
    decodedInstructions := decoded
    builtTx := tx
    outcome := .thrown m }

/-- The body of page.tsx handleDeposit after its wallet guard. -/
def runDepositPageBody (env : PageEnv) (pk : String) : RunResult :=
  let pre := [Event.loadingSet true, Event.statusUpdate pageFetchingMsg,
              Event.pageFetchCall pk]
  match env.fetchResult with
  | .error m => pageCaughtResult pre m [] none
  | .ok res =>
    if res.ok then
      match res.instructions with
      | none => emptyResult pre
      | some [] => emptyResult pre
      | some (d0 :: _) =>
        let pre2 := pre ++ [Event.statusUpdate buildingMsg,
                            Event.getLatestBlockhash, Event.decodeCall]
        match decodeInstruction d0 with
        | .error m => pageCaughtResult pre2 m [] none
        | .ok ix =>
          let tx := Transaction.add
            { instructions := [], recentBlockhash := env.blockhash, feePayer := pk } ix
          let pre3 := pre2 ++ [Event.statusUpdate signingMsg, Event.signCall]
          match env.signResult with
          | .error m => pageCaughtResult pre3 m [ix] (some tx)
          | .ok _ =>
            let pre4 := pre3 ++ [Event.sendCall false "confirmed"]
            match env.sendResult with
            | .error m => pageCaughtResult pre4 m [ix] (some tx)
            | .ok sig =>
              let pre5 := pre4 ++ [Event.statusUpdate confirmingMsg, Event.confirmCall]
              match env.confirmResult with
              | .error m => pageCaughtResult pre5 m [ix] (some tx)
              | .ok _ =>
                { trace := pre5 ++ [.statusUpdate (confirmedStatus sig), .loadingSet false]
                  finalStatus := confirmedStatus sig
                  isLoading := false
                  decodedInstructions := [ix]
                  builtTx := some tx
                  outcome := .confirmed sig }
    else backendResult pre res.errorField

/-- One invocation of page.tsx handleDeposit. -/
def runDepositPage (env : PageEnv) : RunResult :=
  match env.walletPublicKey with
  | none => guardResult connectWalletMsg
  | some pk => runDepositPageBody env pk

/-- The send options of page.tsx `initializeConfig`
(src/src/app/page.tsx lines 179-182): same literal options object. -/
structure SendOptions where
  skipPreflight : Bool
  preflightCommitment : String
deriving DecidableEq, Repr

def initConfigSendOpts : SendOptions :=
  { skipPreflight := false, preflightCommitment := "confirmed" }

/-! ## Trace prefixes, named for use in the run-shape lemmas -/

/-- Events up to and including the fetch call of part_001. -/
def tracePre1 (env : Env) (pk : String) (f : FileInfo) : List Event :=
  [Event.loadingSet true, Event.statusUpdate uploadingMsg,
   Event.fetchCall (env.durationDays * 86400) f.size pk]

/-- Events up to and including the decode attempt. -/
def tracePre2 (env : Env) (pk : String) (f : FileInfo) : List Event :=
  tracePre1 env pk f ++ [Event.statusUpdate buildingMsg,
                         Event.getLatestBlockhash, Event.decodeCall]

/-- Events up to and including the signing attempt. -/
def tracePre3 (env : Env) (pk : String) (f : FileInfo) : List Event :=
  tracePre2 env pk f ++ [Event.statusUpdate signingMsg, Event.signCall]

/-- Events up to and including the broadcast attempt. -/
def tracePre4 (env : Env) (pk : String) (f : FileInfo) : List Event :=
  tracePre3 env pk f ++ [Event.sendCall false "confirmed"]

/-- Events up to and including the confirmation attempt. -/
def tracePre5 (env : Env) (pk : String) (f : FileInfo) : List Event :=
  tracePre4 env pk f ++ [Event.statusUpdate confirmingMsg, Event.confirmCall]

/-- The transaction built from one decoded instruction: empty transaction,
`recentBlockhash`, `feePayer`, one `add`. -/
def builtOf (bh pk : String) (ix : TransactionInstruction) : Transaction :=
  Transaction.add { instructions := [], recentBlockhash := bh, feePayer := pk } ix

/-- The result of the success path. -/
def successResult (pre : List Event) (sig : String)
    (ix : TransactionInstruction) (tx : Transaction) : RunResult :=
  { trace := pre ++ [.statusUpdate (confirmedStatus sig), .loadingSet false]
    finalStatus := confirmedStatus sig
    isLoading := false
    decodedInstructions := [ix]
    builtTx := some tx
    outcome := .confirmed sig }

/-- Page.tsx analogue of `tracePre1`. -/
def pagePre1 (pk : String) : List Event :=
  [Event.loadingSet true, Event.statusUpdate pageFetchingMsg, Event.pageFetchCall pk]

def pagePre2 (pk : String) : List Event :=
  pagePre1 pk ++ [Event.statusUpdate buildingMsg,
                  Event.getLatestBlockhash, Event.decodeCall]

def pagePre3 (pk : String) : List Event :=
  pagePre2 pk ++ [Event.statusUpdate signingMsg, Event.signCall]

def pagePre4 (pk : String) : List Event :=
  pagePre3 pk ++ [Event.sendCall false "confirmed"]

def pagePre5 (pk : String) : List Event :=
  pagePre4 pk ++ [Event.statusUpdate confirmingMsg, Event.confirmCall]

/-! ## Concrete inputs used by witnesses and counterexamples -/

/-- The system-program address: 32 base58 ones, decoding to 32 zero bytes. -/
def allOnesAddr : String := "11111111111111111111111111111111"

def goodMeta : AccountMeta :=
  { pubkey := allOnesAddr, isSigner := true, isWritable := true }

/-- A well-formed descriptor (payload "AQID" is base64 for bytes 1,2,3). -/
def goodDesc : InstructionDescriptor :=
  { programId := allOnesAddr, keys := [goodMeta], data := "AQID" }

/-- A descriptor whose payload is not valid base64. -/
def badPayloadDesc : InstructionDescriptor :=
  { programId := allOnesAddr, keys := [goodMeta], data := "!!!" }

/-- A descriptor whose program address is not valid base58. -/
def badAddrDesc : InstructionDescriptor :=
  { programId := "!bad", keys := [], data := "AQID" }

/-- An environment in which every stage succeeds. -/
def envAllOk : Env :=
  { walletPublicKey := some allOnesAddr
    file := some { name := "a.txt", size := 5 }
    durationDays := 7
    fetchResult := .ok { ok := true, errorField := none, instructions := some [goodDesc] }
    blockhash := "BH1"
    lastValidBlockHeight := 100
    signResult := .ok ()
    sendResult := .ok "sig1"
    confirmResult := .ok () }

/-- As `envAllOk` but the backend returns two descriptors, the second one
malformed. -/
def envTwoDesc : Env :=
  { envAllOk with
    fetchResult := .ok { ok := true, errorField := none,
                         instructions := some [goodDesc, badAddrDesc] } }

/-- As `envAllOk` but the backend returns an empty instruction list. -/
def envEmptyList : Env :=
  { envAllOk with
    fetchResult := .ok { ok := true, errorField := none, instructions := some [] } }

/-- As `envAllOk` but no wallet is connected. -/
def envNoWallet : Env := { envAllOk with walletPublicKey := none }

/-- The decoded form of `goodDesc`. -/
def goodIx : TransactionInstruction :=
  { programId := List.replicate 32 0
    keys := [{ pubkey := List.replicate 32 0, isSigner := true, isWritable := true }]
    data := [1, 2, 3] }

/-- The transaction built in `envAllOk`. -/
def txAllOk : Transaction := builtOf "BH1" allOnesAddr goodIx

/-- A page.tsx environment in which every stage succeeds but decoding gets
a bad program address. -/
def pageEnvBadAddr : PageEnv :=
  { walletPublicKey := some allOnesAddr
    fetchResult := .ok { ok := true, errorField := none, instructions := some [badAddrDesc] }
    blockhash := "BH1"
    lastValidBlockHeight := 100
    signResult := .ok ()
    sendResult := .ok "sig1"
    confirmResult := .ok () }

/-- The ordering property claimed of the freshness token: whenever a run
both fetches the recent blockhash and decodes the descriptor, the
blockhash fetch comes strictly after the decode step. -/
def tokenAfterDecode (r : RunResult) : Bool :=
  match firstIdx Event.isGetBlockhash r.trace, firstIdx Event.isDecodeCall r.trace with
  | some i, some j => j < i
  | _, _ => true

/-! ## Run-shape lemmas: every possible result of one invocation -/

/-- Case analysis on the part_001 pipeline body: exactly one of the eight
source exit paths is taken, and each fully determines the result. -/
theorem runDepositBody_shape (env : Env) (pk : String) (f : FileInfo) :
    (∃ m, env.fetchResult = .error m ∧
      runDepositBody env pk f = caughtResult (tracePre1 env pk f) m [] none) ∨
    (∃ res, env.fetchResult = .ok res ∧ res.ok = false ∧
      runDepositBody env pk f = backendResult (tracePre1 env pk f) res.errorField) ∨
    (∃ res, env.fetchResult = .ok res ∧ res.ok = true ∧
      (res.instructions = none ∨ res.instructions = some []) ∧
      runDepositBody env pk f = emptyResult (tracePre1 env pk f)) ∨
    (∃ res d0 rest m, env.fetchResult = .ok res ∧ res.ok = true ∧
      res.instructions = some (d0 :: rest) ∧ decodeInstruction d0 = .error m ∧
      runDepositBody env pk f = caughtResult (tracePre2 env pk f) m [] none) ∨
    (∃ res d0 rest ix, env.fetchResult = .ok res ∧ res.ok = true ∧
      res.instructions = some (d0 :: rest) ∧ decodeInstruction d0 = .ok ix ∧
      ((∃ m, env.signResult = .error m ∧
         runDepositBody env pk f =
           caughtResult (tracePre3 env pk f) m [ix] (some (builtOf env.blockhash pk ix))) ∨
       (env.signResult = .ok () ∧
        ((∃ m, env.sendResult = .error m ∧
           runDepositBody env pk f =
             caughtResult (tracePre4 env pk f) m [ix] (some (builtOf env.blockhash pk ix))) ∨
         (∃ sig, env.sendResult = .ok sig ∧
          ((∃ m, env.confirmResult = .error m ∧
             runDepositBody env pk f =
               caughtResult (tracePre5 env pk f) m [ix] (some (builtOf env.blockhash pk ix))) ∨
           (env.confirmResult = .ok () ∧
             runDepositBody env pk f =
               successResult (tracePre5 env pk f) sig ix (builtOf env.blockhash pk ix)))))))) := by
  rcases hfr : env.fetchResult with m | res
  · exact Or.inl ⟨m, rfl, by
      simp [runDepositBody, hfr, tracePre1]⟩
  rcases hok : res.ok
  · refine Or.inr (Or.inl ⟨res, rfl, hok, ?_⟩)
    simp [runDepositBody, hfr, hok, tracePre1]
  rcases hins : res.instructions with _ | ls
  · refine Or.inr (Or.inr (Or.inl ⟨res, rfl, hok, Or.inl hins, ?_⟩))
    simp [runDepositBody, hfr, hok, hins, tracePre1]
  rcases ls with _ | ⟨d0, rest⟩
  · refine Or.inr (Or.inr (Or.inl ⟨res, rfl, hok, Or.inr hins, ?_⟩))
    simp [runDepositBody, hfr, hok, hins, tracePre1]
  rcases hdec : decodeInstruction d0 with m | ix
  · refine Or.inr (Or.inr (Or.inr (Or.inl ⟨res, d0, rest, m, rfl, hok, hins, hdec, ?_⟩)))
    simp [runDepositBody, hfr, hok, hins, hdec, tracePre2, tracePre1]
  refine Or.inr (Or.inr (Or.inr (Or.inr ⟨res, d0, rest, ix, rfl, hok, hins, hdec, ?_⟩)))
  rcases hsig : env.signResult with m | u
  · refine Or.inl ⟨m, rfl, ?_⟩
    simp [runDepositBody, hfr, hok, hins, hdec, hsig, tracePre3, tracePre2, tracePre1, builtOf]
  refine Or.inr ⟨rfl, ?_⟩
  rcases hsend : env.sendResult with m | sig
  · refine Or.inl ⟨m, rfl, ?_⟩
    simp [runDepositBody, hfr, hok, hins, hdec, hsig, hsend,
          tracePre4, tracePre3, tracePre2, tracePre1, builtOf]
  refine Or.inr ⟨sig, rfl, ?_⟩
  rcases hcf : env.confirmResult with m | u
  · refine Or.inl ⟨m, rfl, ?_⟩
    simp [runDepositBody, hfr, hok, hins, hdec, hsig, hsend, hcf,
          tracePre5, tracePre4, tracePre3, tracePre2, tracePre1, builtOf]
  refine Or.inr ⟨rfl, ?_⟩
  simp [runDepositBody, hfr, hok, hins, hdec, hsig, hsend, hcf, successResult,
        tracePre5, tracePre4, tracePre3, tracePre2, tracePre1, builtOf]

/-- Case analysis on part_001 handleDeposit: the three guards, then the
body. -/
theorem runDeposit_shape (env : Env) :
    (env.walletPublicKey = none ∧ runDeposit env = guardResult connectWalletMsg) ∨
    ((∃ pk, env.walletPublicKey = some pk) ∧ env.file = none ∧
      runDeposit env = guardResult selectFileMsg) ∨
    ((∃ pk, env.walletPublicKey = some pk) ∧ (∃ f, env.file = some f) ∧
      env.durationDays < 1 ∧ runDeposit env = guardResult durationMsg) ∨
    (∃ pk f, env.walletPublicKey = some pk ∧ env.file = some f ∧
      1 ≤ env.durationDays ∧ runDeposit env = runDepositBody env pk f) := by
  rcases hw : env.walletPublicKey with _ | pk
  · exact Or.inl ⟨rfl, by simp [runDeposit, hw]⟩
  rcases hf : env.file with _ | f
  · exact Or.inr (Or.inl ⟨⟨pk, rfl⟩, rfl, by simp [runDeposit, hw, hf]⟩)
  by_cases hd : env.durationDays < 1
  · exact Or.inr (Or.inr (Or.inl ⟨⟨pk, rfl⟩, ⟨f, rfl⟩, hd, by simp [runDeposit, hw, hf, hd]⟩))
  · exact Or.inr (Or.inr (Or.inr ⟨pk, f, rfl, rfl, by omega, by simp [runDeposit, hw, hf, hd]⟩))

/-- Case analysis on the page.tsx pipeline body. -/
theorem runDepositPageBody_shape (env : PageEnv) (pk : String) :
    (∃ m, env.fetchResult = .error m ∧
      runDepositPageBody env pk = pageCaughtResult (pagePre1 pk) m [] none) ∨
    (∃ res, env.fetchResult = .ok res ∧ res.ok = false ∧
      runDepositPageBody env pk = backendResult (pagePre1 pk) res.errorField) ∨
    (∃ res, env.fetchResult = .ok res ∧ res.ok = true ∧
      (res.instructions = none ∨ res.instructions = some []) ∧
      runDepositPageBody env pk = emptyResult (pagePre1 pk)) ∨
    (∃ res d0 rest m, env.fetchResult = .ok res ∧ res.ok = true ∧
      res.instructions = some (d0 :: rest) ∧ decodeInstruction d0 = .error m ∧
      runDepositPageBody env pk = pageCaughtResult (pagePre2 pk) m [] none) ∨
    (∃ res d0 rest ix, env.fetchResult = .ok res ∧ res.ok = true ∧
      res.instructions = some (d0 :: rest) ∧ decodeInstruction d0 = .ok ix ∧
      ((∃ m, env.signResult = .error m ∧
         runDepositPageBody env pk =
           pageCaughtResult (pagePre3 pk) m [ix] (some (builtOf env.blockhash pk ix))) ∨
       (env.signResult = .ok () ∧
        ((∃ m, env.sendResult = .error m ∧
           runDepositPageBody env pk =
             pageCaughtResult (pagePre4 pk) m [ix] (some (builtOf env.blockhash pk ix))) ∨
         (∃ sig, env.sendResult = .ok sig ∧
          ((∃ m, env.confirmResult = .error m ∧
             runDepositPageBody env pk =
               pageCaughtResult (pagePre5 pk) m [ix] (some (builtOf env.blockhash pk ix))) ∨
           (env.confirmResult = .ok () ∧
             runDepositPageBody env pk =
               successResult (pagePre5 pk) sig ix (builtOf env.blockhash pk ix)))))))) := by
  rcases hfr : env.fetchResult with m | res
  · exact Or.inl ⟨m, rfl, by simp [runDepositPageBody, hfr, pagePre1]⟩
  rcases hok : res.ok
  · refine Or.inr (Or.inl ⟨res, rfl, hok, ?_⟩)
    simp [runDepositPageBody, hfr, hok, pagePre1]
  rcases hins : res.instructions with _ | ls
  · refine Or.inr (Or.inr (Or.inl ⟨res, rfl, hok, Or.inl hins, ?_⟩))
    simp [runDepositPageBody, hfr, hok, hins, pagePre1]
  rcases ls with _ | ⟨d0, rest⟩
  · refine Or.inr (Or.inr (Or.inl ⟨res, rfl, hok, Or.inr hins, ?_⟩))
    simp [runDepositPageBody, hfr, hok, hins, pagePre1]
  rcases hdec : decodeInstruction d0 with m | ix
  · refine Or.inr (Or.inr (Or.inr (Or.inl ⟨res, d0, rest, m, rfl, hok, hins, hdec, ?_⟩)))
    simp [runDepositPageBody, hfr, hok, hins, hdec, pagePre2, pagePre1]
  refine Or.inr (Or.inr (Or.inr (Or.inr ⟨res, d0, rest, ix, rfl, hok, hins, hdec, ?_⟩)))
  rcases hsig : env.signResult with m | u
  · refine Or.inl ⟨m, rfl, ?_⟩
    simp [runDepositPageBody, hfr, hok, hins, hdec, hsig, pagePre3, pagePre2, pagePre1, builtOf]
  refine Or.inr ⟨rfl, ?_⟩
  rcases hsend : env.sendResult with m | sig
  · refine Or.inl ⟨m, rfl, ?_⟩
    simp [runDepositPageBody, hfr, hok, hins, hdec, hsig, hsend,
          pagePre4, pagePre3, pagePre2, pagePre1, builtOf]
  refine Or.inr ⟨sig, rfl, ?_⟩
  rcases hcf : env.confirmResult with m | u
  · refine Or.inl ⟨m, rfl, ?_⟩
    simp [runDepositPageBody, hfr, hok, hins, hdec, hsig, hsend, hcf,
          pagePre5, pagePre4, pagePre3, pagePre2, pagePre1, builtOf]
  refine Or.inr ⟨rfl, ?_⟩
  simp [runDepositPageBody, hfr, hok, hins, hdec, hsig, hsend, hcf, successResult,
        pagePre5, pagePre4, pagePre3, pagePre2, pagePre1, builtOf]

/-- Case analysis on page.tsx handleDeposit. -/
theorem runDepositPage_shape (env : PageEnv) :
    (env.walletPublicKey = none ∧ runDepositPage env = guardResult connectWalletMsg) ∨
    (∃ pk, env.walletPublicKey = some pk ∧
      runDepositPage env = runDepositPageBody env pk) := by
  rcases hw : env.walletPublicKey with _ | pk
  · exact Or.inl ⟨rfl, by simp [runDepositPage, hw]⟩
  · exact Or.inr ⟨pk, rfl, by simp [runDepositPage, hw]⟩

/-! ## Helper lemmas shared between claims -/

/-- In every exit of the part_001 body, any broadcast call in the trace
used the literal options of the source. -/
theorem sendCall_options_body (env : Env) (pk : String) (f : FileInfo)
    (sp : Bool) (pc : String)
    (h : Event.sendCall sp pc ∈ (runDepositBody env pk f).trace) :
    sp = false ∧ pc = "confirmed" := by
  rcases runDepositBody_shape env pk f with
      ⟨m, -, hb⟩ | ⟨res, -, -, hb⟩ | ⟨res, -, -, -, hb⟩ | ⟨res, d0, rest, m, -, -, -, -, hb⟩ |
      ⟨res, d0, rest, ix, -, -, -, -,
        ⟨m, -, hb⟩ | ⟨-, ⟨m, -, hb⟩ | ⟨sig, -, ⟨m, -, hb⟩ | ⟨-, hb⟩⟩⟩⟩ <;>
    rw [hb] at h <;>
    simp [caughtResult, backendResult, emptyResult, successResult,
          tracePre5, tracePre4, tracePre3, tracePre2, tracePre1] at h <;>
    exact h

/-- Page.tsx analogue of `sendCall_options_body`. -/
theorem sendCall_options_pageBody (env : PageEnv) (pk : String)
    (sp : Bool) (pc : String)
    (h : Event.sendCall sp pc ∈ (runDepositPageBody env pk).trace) :
    sp = false ∧ pc = "confirmed" := by
  rcases runDepositPageBody_shape env pk with
      ⟨m, -, hb⟩ | ⟨res, -, -, hb⟩ | ⟨res, -, -, -, hb⟩ | ⟨res, d0, rest, m, -, -, -, -, hb⟩ |
      ⟨res, d0, rest, ix, -, -, -, -,
        ⟨m, -, hb⟩ | ⟨-, ⟨m, -, hb⟩ | ⟨sig, -, ⟨m, -, hb⟩ | ⟨-, hb⟩⟩⟩⟩ <;>
    rw [hb] at h <;>
    simp [pageCaughtResult, backendResult, emptyResult, successResult,
          pagePre5, pagePre4, pagePre3, pagePre2, pagePre1] at h <;>
    exact h

/-- Every exit of one part_001 invocation leaves the loading flag false. -/
theorem runDeposit_isLoading_false (env : Env) : (runDeposit env).isLoading = false := by
  rcases runDeposit_shape env with ⟨-, he⟩ | ⟨-, -, he⟩ | ⟨-, -, -, he⟩ | ⟨pk, f, -, -, -, he⟩ <;>
    rw [he]
  · rfl
  · rfl
  · rfl
  rcases runDepositBody_shape env pk f with
      ⟨m, -, hb⟩ | ⟨res, -, -, hb⟩ | ⟨res, -, -, -, hb⟩ | ⟨res, d0, rest, m, -, -, -, -, hb⟩ |
      ⟨res, d0, rest, ix, -, -, -, -,
        ⟨m, -, hb⟩ | ⟨-, ⟨m, -, hb⟩ | ⟨sig, -, ⟨m, -, hb⟩ | ⟨-, hb⟩⟩⟩⟩ <;>
    rw [hb] <;> rfl

/-! ## Claim theorems -/

/-- C1: whenever a part_001 run builds an unsigned transaction, the list of
decoded instructions handed to the building step is non-empty, and the
instruction list of the built transaction is exactly that list, in the same
order. -/
theorem c1_builder_preserves_order (env : Env) (tx : Transaction)
    (h : (runDeposit env).builtTx = some tx) :
    (runDeposit env).decodedInstructions ≠ [] ∧
    tx.instructions = (runDeposit env).decodedInstructions := by
  rcases runDeposit_shape env with ⟨-, he⟩ | ⟨-, -, he⟩ | ⟨-, -, -, he⟩ | ⟨pk, f, -, -, -, he⟩ <;>
    rw [he] at h ⊢
  · simp [guardResult] at h
  · simp [guardResult] at h
  · simp [guardResult] at h
  rcases runDepositBody_shape env pk f with
      ⟨m, -, hb⟩ | ⟨res, -, -, hb⟩ | ⟨res, -, -, -, hb⟩ | ⟨res, d0, rest, m, -, -, -, -, hb⟩ |
      ⟨res, d0, rest, ix, -, -, -, -,
        ⟨m, -, hb⟩ | ⟨-, ⟨m, -, hb⟩ | ⟨sig, -, ⟨m, -, hb⟩ | ⟨-, hb⟩⟩⟩⟩ <;>
    rw [hb] at h ⊢ <;>
    simp only [caughtResult, backendResult, emptyResult, successResult,
               Option.some.injEq, reduceCtorEq] at h <;>
    (try subst h) <;>
    simp [caughtResult, successResult, builtOf, Transaction.add]

/-- C1 witness: the all-success environment builds the expected one-element
transaction. -/
theorem c1_witness :
    (runDeposit envAllOk).builtTx = some txAllOk ∧
    ((runDeposit envAllOk).decodedInstructions ≠ [] ∧
      txAllOk.instructions = (runDeposit envAllOk).decodedInstructions) :=
  ⟨by decide, c1_builder_preserves_order envAllOk txAllOk (by decide)⟩

/-- C6: every broadcast in either handleDeposit uses skipPreflight set to
false with preflightCommitment confirmed, and the initializeConfig
broadcast uses the same literal options. -/
theorem c6_preflight_never_skipped :
    (∀ env sp pc, Event.sendCall sp pc ∈ (runDeposit env).trace →
      sp = false ∧ pc = "confirmed") ∧
    (∀ env sp pc, Event.sendCall sp pc ∈ (runDepositPage env).trace →
      sp = false ∧ pc = "confirmed") ∧
    initConfigSendOpts.skipPreflight = false := by
  refine ⟨?_, ?_, rfl⟩
  · intro env sp pc h
    rcases runDeposit_shape env with ⟨-, he⟩ | ⟨-, -, he⟩ | ⟨-, -, -, he⟩ | ⟨pk, f, -, -, -, he⟩ <;>
      rw [he] at h
    · simp [guardResult] at h
    · simp [guardResult] at h
    · simp [guardResult] at h
    · exact sendCall_options_body env pk f sp pc h
  · intro env sp pc h
    rcases runDepositPage_shape env with ⟨-, he⟩ | ⟨pk, -, he⟩ <;> rw [he] at h
    · simp [guardResult] at h
    · exact sendCall_options_pageBody env pk sp pc h

/-- C6 witness: the all-success run contains a broadcast call, and its
options satisfy the theorem. -/
theorem c6_witness :
    Event.sendCall false "confirmed" ∈ (runDeposit envAllOk).trace ∧
    (false = false ∧ "confirmed" = "confirmed") :=
  ⟨by decide, c6_preflight_never_skipped.1 envAllOk false "confirmed" (by decide)⟩

/-- C7: with no connected wallet or no selected file, a part_001 run makes
no external call at all, reports the corresponding validation message, and
leaves the loading flag down with an idle-validation outcome. -/
theorem c7_idle_guards (env : Env)
    (h : env.walletPublicKey = none ∨ env.file = none) :
    (runDeposit env).trace.filter Event.isExternalCall = [] ∧
    ((runDeposit env).finalStatus = connectWalletMsg ∨
      (runDeposit env).finalStatus = selectFileMsg) ∧
    (runDeposit env).isLoading = false ∧
    (runDeposit env).outcome = .idleValidation (runDeposit env).finalStatus := by
  rcases runDeposit_shape env with ⟨-, he⟩ | ⟨-, -, he⟩ | ⟨⟨pk, hw⟩, ⟨f, hf⟩, -, he⟩ |
      ⟨pk, f, hw, hf, -, he⟩
  · rw [he]; exact ⟨rfl, Or.inl rfl, rfl, rfl⟩
  · rw [he]; exact ⟨rfl, Or.inr rfl, rfl, rfl⟩
  · rcases h with h | h <;> simp [h] at hw hf
  · rcases h with h | h <;> simp [h] at hw hf

/-- C7 witness: the wallet-less environment. -/
theorem c7_witness :
    (envNoWallet.walletPublicKey = none ∨ envNoWallet.file = none) ∧
    ((runDeposit envNoWallet).trace.filter Event.isExternalCall = [] ∧
     ((runDeposit envNoWallet).finalStatus = connectWalletMsg ∨
       (runDeposit envNoWallet).finalStatus = selectFileMsg) ∧
     (runDeposit envNoWallet).isLoading = false ∧
     (runDeposit envNoWallet).outcome = .idleValidation (runDeposit envNoWallet).finalStatus) :=
  ⟨Or.inl (by decide), c7_idle_guards envNoWallet (Or.inl (by decide))⟩

/-- C8: the loading guard goes up before the fetch call, the submit button
is disabled whenever the guard is up, and every exit of a run releases the
guard. -/
theorem c8_inflight_guard :
    (∀ env i, firstIdx Event.isFetchCall (runDeposit env).trace = some i →
      ∃ j, firstIdx Event.isLoadingTrue (runDeposit env).trace = some j ∧ j < i) ∧
    (∀ w f, submitDisabled w true f = true) ∧
    (∀ env, (runDeposit env).isLoading = false) := by
  refine ⟨?_, by decide, runDeposit_isLoading_false⟩
  intro env i h
  rcases runDeposit_shape env with ⟨-, he⟩ | ⟨-, -, he⟩ | ⟨-, -, -, he⟩ | ⟨pk, f, -, -, -, he⟩ <;>
    rw [he] at h ⊢
  · simp [guardResult, firstIdx, Event.isFetchCall] at h
  · simp [guardResult, firstIdx, Event.isFetchCall] at h
  · simp [guardResult, firstIdx, Event.isFetchCall] at h
  rcases runDepositBody_shape env pk f with
      ⟨m, -, hb⟩ | ⟨res, -, -, hb⟩ | ⟨res, -, -, -, hb⟩ | ⟨res, d0, rest, m, -, -, -, -, hb⟩ |
      ⟨res, d0, rest, ix, -, -, -, -,
        ⟨m, -, hb⟩ | ⟨-, ⟨m, -, hb⟩ | ⟨sig, -, ⟨m, -, hb⟩ | ⟨-, hb⟩⟩⟩⟩ <;>
    rw [hb] at h ⊢ <;>
    simp [caughtResult, backendResult, emptyResult, successResult, firstIdx,
          Event.isFetchCall, Event.isLoadingTrue,
          tracePre5, tracePre4, tracePre3, tracePre2, tracePre1] at h ⊢ <;>
    omega

/-- C8 witness: the all-success run fetches at index 2 with the guard
raised at index 0. -/
theorem c8_witness :
    firstIdx Event.isFetchCall (runDeposit envAllOk).trace = some 2 ∧
    (∃ j, firstIdx Event.isLoadingTrue (runDeposit envAllOk).trace = some j ∧ j < 2) ∧
    submitDisabled true true true = true ∧
    (runDeposit envAllOk).isLoading = false :=
  ⟨by decide, c8_inflight_guard.1 envAllOk 2 (by decide),
   c8_inflight_guard.2.1 true true, c8_inflight_guard.2.2 envAllOk⟩

/-- C9: every fetch request a part_001 run actually sends carries a
strictly positive duration in seconds and a non-negative byte size, and an
invalid or non-positive duration input never replaces a valid stored
duration. -/
theorem c9_request_constraints :
    (∀ env dur size pk, Event.fetchCall dur size pk ∈ (runDeposit env).trace →
      0 < dur ∧ 0 ≤ size) ∧
    (∀ input current, 0 < current → 0 < handleDurationChange input current) := by
  constructor
  · intro env dur size pk h
    rcases runDeposit_shape env with ⟨-, he⟩ | ⟨-, -, he⟩ | ⟨-, -, -, he⟩ |
        ⟨pk0, f, -, -, hd, he⟩ <;> rw [he] at h
    · simp [guardResult] at h
    · simp [guardResult] at h
    · simp [guardResult] at h
    rcases runDepositBody_shape env pk0 f with
        ⟨m, -, hb⟩ | ⟨res, -, -, hb⟩ | ⟨res, -, -, -, hb⟩ | ⟨res, d0, rest, m, -, -, -, -, hb⟩ |
        ⟨res, d0, rest, ix, -, -, -, -,
          ⟨m, -, hb⟩ | ⟨-, ⟨m, -, hb⟩ | ⟨sig, -, ⟨m, -, hb⟩ | ⟨-, hb⟩⟩⟩⟩ <;>
      rw [hb] at h <;>
      simp [caughtResult, backendResult, emptyResult, successResult,
            tracePre5, tracePre4, tracePre3, tracePre2, tracePre1] at h <;>
      obtain ⟨h1, -, -⟩ := h <;>
      constructor <;> omega
  · intro input current hc
    unfold handleDurationChange
    rcases parseIntJS input with _ | d
    · exact hc
    · dsimp only
      split <;> omega

/-- C9 witness: the fetch call of the all-success run and a valid duration
update. -/
theorem c9_witness :
    ((0 : Int) < 604800 ∧ (0 : Nat) ≤ 5) ∧ 0 < handleDurationChange "12" 7 :=
  ⟨c9_request_constraints.1 envAllOk 604800 5 allOnesAddr (by decide),
   c9_request_constraints.2 "12" 7 (by decide)⟩

/-- The empty-instruction status is never equal to a catch-all failure
status, whatever the error message. -/
theorem noInstructionMsg_ne_failed (m : String) :
    noInstructionMsg ≠ depositFailedStatus m := by
  obtain ⟨md⟩ := m
  intro h
  rw [String.ext_iff] at h
  simp [noInstructionMsg, depositFailedStatus, String.data_append] at h

/-- C4: a run whose guards pass and whose fetch succeeds with an empty or
missing instruction list terminates on the dedicated empty-response path:
its status is the dedicated message, which differs from every catch-all
(network-failure) status, and no decode, signing or broadcast call is
made, nor any transaction built. -/
theorem c4_empty_response (env : Env) (pk : String) (f : FileInfo) (res : FetchResponse)
    (hw : env.walletPublicKey = some pk) (hf : env.file = some f)
    (hd : 1 ≤ env.durationDays) (hfr : env.fetchResult = .ok res)
    (hok : res.ok = true)
    (hins : res.instructions = none ∨ res.instructions = some []) :
    (runDeposit env).outcome = .emptyResponse ∧
    (runDeposit env).finalStatus = noInstructionMsg ∧
    (∀ m, (runDeposit env).finalStatus ≠ depositFailedStatus m) ∧
    (runDeposit env).trace.filter
      (fun e => e.isDecodeCall || e.isSignCall || e.isSendCall) = [] ∧
    (runDeposit env).builtTx = none := by
  rcases runDeposit_shape env with ⟨h1, -⟩ | ⟨-, h1, -⟩ | ⟨-, -, h1, -⟩ | ⟨pk0, f0, -, -, -, he⟩
  · rw [hw] at h1; simp at h1
  · rw [hf] at h1; simp at h1
  · omega
  rw [he]
  rcases runDepositBody_shape env pk0 f0 with
      ⟨m, h1, -⟩ | ⟨res0, h1, h2, -⟩ | ⟨res0, -, -, -, hb⟩ |
      ⟨res0, d0, rest, m, h1, -, h3, -, -⟩ |
      ⟨res0, d0, rest, ix, h1, -, h3, -, -⟩
  · rw [hfr] at h1; simp at h1
  · rw [hfr] at h1
    injection h1 with h1
    subst h1
    simp [hok] at h2
  · rw [hb]
    refine ⟨rfl, rfl, noInstructionMsg_ne_failed, ?_, rfl⟩
    simp [emptyResult, tracePre1, Event.isDecodeCall, Event.isSignCall, Event.isSendCall]
  · rw [hfr] at h1
    injection h1 with h1
    subst h1
    rcases hins with h | h <;> rw [h] at h3 <;> simp at h3
  · rw [hfr] at h1
    injection h1 with h1
    subst h1
    rcases hins with h | h <;> rw [h] at h3 <;> simp at h3

/-- C4 witness: the empty-list stub environment. -/
theorem c4_witness :
    (runDeposit envEmptyList).outcome = .emptyResponse ∧
    (runDeposit envEmptyList).finalStatus = noInstructionMsg ∧
    (runDeposit envEmptyList).finalStatus ≠ depositFailedStatus "Failed to fetch" ∧
    (runDeposit envEmptyList).builtTx = none :=
  have h := c4_empty_response envEmptyList allOnesAddr { name := "a.txt", size := 5 }
    { ok := true, errorField := none, instructions := some [] }
    (by decide) (by decide) (by decide) (by decide) (by decide) (Or.inr (by decide))
  ⟨h.1, h.2.1, h.2.2.1 "Failed to fetch", h.2.2.2.2⟩

/-- C3 counterexample: in the all-success run both the blockhash fetch and
the decode step occur, and the blockhash fetch comes first (index 4 versus
index 5), so the token is not obtained after decoding completes. -/
theorem c3_counterexample :
    firstIdx Event.isGetBlockhash (runDeposit envAllOk).trace = some 4 ∧
    firstIdx Event.isDecodeCall (runDeposit envAllOk).trace = some 5 ∧
    tokenAfterDecode (runDeposit envAllOk) = false := by
  refine ⟨by decide, by decide, by decide⟩

/-- C3 amended: in every part_001 run that reaches signing, the blockhash
is fetched after the fetch call (index 2) and before both the decode step
(index 5) and the signing call: it sits at index 4 and signing at index 7. -/
theorem c3_amended (env : Env) (k : Nat)
    (h : firstIdx Event.isSignCall (runDeposit env).trace = some k) :
    firstIdx Event.isFetchCall (runDeposit env).trace = some 2 ∧
    firstIdx Event.isGetBlockhash (runDeposit env).trace = some 4 ∧
    firstIdx Event.isDecodeCall (runDeposit env).trace = some 5 ∧
    k = 7 := by
  rcases runDeposit_shape env with ⟨-, he⟩ | ⟨-, -, he⟩ | ⟨-, -, -, he⟩ | ⟨pk, f, -, -, -, he⟩ <;>
    rw [he] at h ⊢
  · simp [guardResult, firstIdx, Event.isSignCall] at h
  · simp [guardResult, firstIdx, Event.isSignCall] at h
  · simp [guardResult, firstIdx, Event.isSignCall] at h
  rcases runDepositBody_shape env pk f with
      ⟨m, -, hb⟩ | ⟨res, -, -, hb⟩ | ⟨res, -, -, -, hb⟩ | ⟨res, d0, rest, m, -, -, -, -, hb⟩ |
      ⟨res, d0, rest, ix, -, -, -, -,
        ⟨m, -, hb⟩ | ⟨-, ⟨m, -, hb⟩ | ⟨sig, -, ⟨m, -, hb⟩ | ⟨-, hb⟩⟩⟩⟩ <;>
    rw [hb] at h ⊢ <;>
    simp [caughtResult, backendResult, emptyResult, successResult, firstIdx,
          Event.isSignCall, Event.isFetchCall, Event.isGetBlockhash, Event.isDecodeCall,
          tracePre5, tracePre4, tracePre3, tracePre2, tracePre1] at h ⊢ <;>
    omega

/-- C3 witness: the all-success run reaches signing at index 7. -/
theorem c3_witness :
    firstIdx Event.isSignCall (runDeposit envAllOk).trace = some 7 ∧
    (firstIdx Event.isFetchCall (runDeposit envAllOk).trace = some 2 ∧
     firstIdx Event.isGetBlockhash (runDeposit envAllOk).trace = some 4 ∧
     firstIdx Event.isDecodeCall (runDeposit envAllOk).trace = some 5 ∧
     (7 : Nat) = 7) :=
  ⟨by decide, c3_amended envAllOk 7 (by decide)⟩

/-- C10: every confirmed part_001 run decoded exactly the first descriptor
of the list the backend returned — however long that list is — and the built
transaction carries exactly that one decoded instruction; the decode step
ran exactly once. -/
theorem c10_only_first_descriptor (env : Env) (sig : String)
    (h : (runDeposit env).outcome = .confirmed sig) :
    ∃ res d0 rest ix tx,
      env.fetchResult = .ok res ∧
      res.instructions = some (d0 :: rest) ∧
      decodeInstruction d0 = .ok ix ∧
      (runDeposit env).decodedInstructions = [ix] ∧
      (runDeposit env).builtTx = some tx ∧
      tx.instructions = [ix] ∧
      ((runDeposit env).trace.filter Event.isDecodeCall).length = 1 := by
  rcases runDeposit_shape env with ⟨-, he⟩ | ⟨-, -, he⟩ | ⟨-, -, -, he⟩ | ⟨pk, f, -, -, -, he⟩ <;>
    rw [he] at h ⊢
  · simp [guardResult] at h
  · simp [guardResult] at h
  · simp [guardResult] at h
  rcases runDepositBody_shape env pk f with
      ⟨m, -, hb⟩ | ⟨res, -, -, hb⟩ | ⟨res, -, -, -, hb⟩ | ⟨res, d0, rest, m, -, -, -, -, hb⟩ |
      ⟨res, d0, rest, ix, hfr, -, hins, hdec,
        ⟨m, -, hb⟩ | ⟨-, ⟨m, -, hb⟩ | ⟨sig0, -, ⟨m, -, hb⟩ | ⟨-, hb⟩⟩⟩⟩ <;>
    rw [hb] at h ⊢ <;>
    simp only [caughtResult, backendResult, emptyResult, successResult, Outcome.confirmed.injEq,
               reduceCtorEq] at h
  refine ⟨res, d0, rest, ix, builtOf env.blockhash pk ix, hfr, hins, hdec, rfl, rfl, ?_, ?_⟩
  · simp [builtOf, Transaction.add]
  · simp [successResult, tracePre5, tracePre4, tracePre3, tracePre2, tracePre1,
          Event.isDecodeCall, List.filter]

/-- C10 witness: with two descriptors returned (the second malformed), the
run still confirms and only one decode happens. -/
theorem c10_witness :
    (runDeposit envTwoDesc).outcome = .confirmed "sig1" ∧
    (runDeposit envTwoDesc).decodedInstructions = [goodIx] ∧
    ((runDeposit envTwoDesc).trace.filter Event.isDecodeCall).length = 1 := by
  obtain ⟨res, d0, rest, ix, tx, -, -, -, hdi, -, -, hlen⟩ :=
    c10_only_first_descriptor envTwoDesc "sig1" (by decide)
  exact ⟨by decide, by decide, hlen⟩

/-- The only messages an address decode can throw are the two generic
library strings, with no field information. -/
theorem publicKeyNew_error_generic (s m : String)
    (h : publicKeyNew s = .error m) :
    m = "Non-base58 character" ∨ m = "Invalid public key input" := by
  unfold publicKeyNew at h
  rcases hd : base58Decode s with _ | bs <;> rw [hd] at h
  · left
    injection h with h
    exact h.symm
  · dsimp only at h
    split at h
    · simp at h
    · right
      injection h with h
      exact h.symm

/-- C2 counterexample: the payload string of three exclamation marks is
not valid base64, yet decoding the descriptor carrying it succeeds — the
forgiving byte decode silently drops every invalid character — so a
syntactically invalid descriptor does not make decoding fail; and a bad
program address fails with a bare generic error rather than a classified
field error. -/
theorem c2_counterexample :
    isStrictBase64 "!!!" = false ∧
    (decodeInstruction badPayloadDesc).isOk = true ∧
    bufferFromBase64 "!!!" = [] ∧
    decodeInstruction badAddrDesc = .error "Non-base58 character" :=
  ⟨by decide, by decide, by decide, by decide⟩

/-- C2 amended: an invalid program or account address makes decoding throw
one of two generic library messages, which the page.tsx pipeline reports
through its catch-all as a plain failed status with no field
classification; a payload that is not valid base64 never makes decoding
fail, because the byte decode silently drops invalid characters. -/
theorem c2_amended :
    (∀ s m, publicKeyNew s = .error m →
      m = "Non-base58 character" ∨ m = "Invalid public key input") ∧
    (∀ env pk res d0 rest m,
      env.walletPublicKey = some pk → env.fetchResult = .ok res → res.ok = true →
      res.instructions = some (d0 :: rest) → decodeInstruction d0 = .error m →
      (runDepositPage env).finalStatus = pageFailedStatus m ∧
      (runDepositPage env).outcome = .thrown m) ∧
    (∀ payload,
      (decodeInstruction { programId := allOnesAddr, keys := [], data := payload }).isOk = true) := by
  refine ⟨publicKeyNew_error_generic, ?_, ?_⟩
  · intro env pk res d0 rest m hw hfr hok hins hdec
    rcases runDepositPage_shape env with ⟨h1, -⟩ | ⟨pk0, -, he⟩
    · rw [hw] at h1; simp at h1
    rw [he]
    rcases runDepositPageBody_shape env pk0 with
        ⟨m0, h1, -⟩ | ⟨res0, h1, h2, -⟩ | ⟨res0, h1, -, h3, -⟩ |
        ⟨res0, d00, rest0, m0, h1, -, h3, h4, hb⟩ |
        ⟨res0, d00, rest0, ix, h1, -, h3, h4, -⟩
    · rw [hfr] at h1; simp at h1
    · rw [hfr] at h1
      injection h1 with h1
      subst h1
      simp [hok] at h2
    · rw [hfr] at h1
      injection h1 with h1
      subst h1
      rcases h3 with h | h <;> rw [hins] at h <;> simp at h
    · rw [hfr] at h1
      injection h1 with h1
      subst h1
      rw [hins] at h3
      injection h3 with h3
      injection h3 with h3a h3b
      subst h3a
      rw [hdec] at h4
      injection h4 with h4
      subst h4
      rw [hb]
      exact ⟨rfl, rfl⟩
    · rw [hfr] at h1
      injection h1 with h1
      subst h1
      rw [hins] at h3
      injection h3 with h3
      injection h3 with h3a h3b
      subst h3a
      rw [hdec] at h4
      simp at h4
  · intro payload
    have h1 : publicKeyNew allOnesAddr = .ok (List.replicate 32 0) := by decide
    simp [decodeInstruction, h1, decodeKeys, Except.isOk, Except.toBool, Bind.bind, Except.bind]

/-- C2 amended witness: concrete instantiations of all three parts. -/
theorem c2_witness :
    ("Non-base58 character" = "Non-base58 character" ∨
      "Non-base58 character" = "Invalid public key input") ∧
    ((runDepositPage pageEnvBadAddr).finalStatus = pageFailedStatus "Non-base58 character" ∧
     (runDepositPage pageEnvBadAddr).outcome = .thrown "Non-base58 character") ∧
    (decodeInstruction { programId := allOnesAddr, keys := [], data := "%%%" }).isOk = true :=
  ⟨c2_amended.1 "!bad" "Non-base58 character" (by decide),
   c2_amended.2.1 pageEnvBadAddr allOnesAddr
     { ok := true, errorField := none, instructions := some [badAddrDesc] }
     badAddrDesc [] "Non-base58 character"
     (by decide) (by decide) (by decide) (by decide) (by decide),
   c2_amended.2.2 "%%%"⟩

/-- C5: the page.tsx catch classification maps a blockhash-expiry error
message and a simulation-failure (rejection) message to two different
reported statuses, and every thrown error in a page.tsx run is reported
through that classification. -/
theorem c5_expired_vs_failed :
    (∀ m, containsJS m "Blockhash not found" = true →
      containsJS m "Transaction simulation failed" = false →
      classifyError m = "Transaction expired. Please try again.") ∧
    (∀ m, containsJS m "Transaction simulation failed" = true →
      classifyError m = "Transaction simulation failed. Check program logs for details.") ∧
    ("Transaction expired. Please try again." ≠
      "Transaction simulation failed. Check program logs for details.") ∧
    (∀ env m, (runDepositPage env).outcome = .thrown m →
      (runDepositPage env).finalStatus = pageFailedStatus m) := by
  refine ⟨?_, ?_, by decide, ?_⟩
  · intro m h1 h2
    simp [classifyError, h1, h2]
  · intro m h1
    simp [classifyError, h1]
  · intro env m h
    rcases runDepositPage_shape env with ⟨-, he⟩ | ⟨pk, -, he⟩ <;> rw [he] at h ⊢
    · simp [guardResult] at h
    rcases runDepositPageBody_shape env pk with
        ⟨m0, -, hb⟩ | ⟨res, -, -, hb⟩ | ⟨res, -, -, -, hb⟩ | ⟨res, d0, rest, m0, -, -, -, -, hb⟩ |
        ⟨res, d0, rest, ix, -, -, -, -,
          ⟨m0, -, hb⟩ | ⟨-, ⟨m0, -, hb⟩ | ⟨sig, -, ⟨m0, -, hb⟩ | ⟨-, hb⟩⟩⟩⟩ <;>
      rw [hb] at h ⊢ <;>
      simp only [pageCaughtResult, backendResult, emptyResult, successResult,
                 Outcome.thrown.injEq, reduceCtorEq] at h <;>
      (try subst h) <;> rfl

/-- C5 witness: an expiry-style message and a rejection-style message give
different statuses, and a thrown decode error is reported classified. -/
theorem c5_witness :
    classifyError "failed to confirm: Blockhash not found" =
      "Transaction expired. Please try again." ∧
    classifyError "Transaction simulation failed: custom program error" =
      "Transaction simulation failed. Check program logs for details." ∧
    (runDepositPage pageEnvBadAddr).finalStatus = pageFailedStatus "Non-base58 character" :=
  ⟨c5_expired_vs_failed.1 "failed to confirm: Blockhash not found" (by decide) (by decide),
   c5_expired_vs_failed.2.1 "Transaction simulation failed: custom program error" (by decide),
   c5_expired_vs_failed.2.2.2 pageEnvBadAddr "Non-base58 character" (by decide)⟩

end StoSol
